import Mathlib

/-!
Verification development for the PagerMon `reader.js` line-processing core.

The JavaScript source (src/client/reader.js) is shallowly embedded:
strings are Lean `String`s (lists of characters), the regular-expression
tests and capture groups of the source are modelled by explicit scanning
functions with JavaScript regex semantics (leftmost match, lazy and greedy
quantifier behaviour where it is observable), the mutable fragment map
`frag` is threaded explicitly, and the external collaborators
(`moment` parsing, the opaque jSAME decoder, the clock) are oracle
parameters.  Exceptions that the per-line try/catch can see are modelled
with `Except`.
-/

set_option maxRecDepth 8000

namespace Reader

/-! ## Basic character-scanning combinators (JS regex semantics) -/

/-- Drop an expected literal pattern from the front of a character list,
returning the remainder, or `none` if the input does not start with it. -/
def dropPre : List Char → List Char → Option (List Char)
  | [], s => some s
  | _ :: _, [] => none
  | p :: ps, c :: cs => if c = p then dropPre ps cs else none

/-- True when some suffix of the input satisfies `p`
(JS unanchored `RegExp.test`, positions scanned left to right,
including the end-of-string position). -/
def anySuffix (p : List Char → Bool) : List Char → Bool
  | [] => p []
  | c :: cs => p (c :: cs) || anySuffix p cs

/-- Leftmost-match search: run the matcher at every start position from the
left and return the first success (JS unanchored match). -/
def searchSuffixes {α : Type} (p : List Char → Option α) : List Char → Option α
  | [] => p []
  | c :: cs =>
    match p (c :: cs) with
    | some a => some a
    | none => searchSuffixes p cs

/-- Lazy `(.*?)` followed by a pattern `p`: consume as few characters as
possible (never a newline, as JS `.` does not match one) until `p`
succeeds, returning the consumed prefix and `p`'s result. -/
def lazyCapture {α : Type} (p : List Char → Option α) : List Char → Option (List Char × α)
  | [] =>
    match p [] with
    | some a => some ([], a)
    | none => none
  | c :: cs =>
    match p (c :: cs) with
    | some a => some ([], a)
    | none =>
      if c = '\n' then none
      else (lazyCapture p cs).map (fun x => (c :: x.1, x.2))

/-- Greedy `.*` followed by a pattern `p`: prefer the rightmost position at
which `p` succeeds (backtracking from the longest `.*`), `.*` never
crossing a newline. -/
def greedyScanLast {α : Type} (p : List Char → Option α) : List Char → Option α
  | [] => p []
  | c :: cs =>
    if c = '\n' then p (c :: cs)
    else
      match greedyScanLast p cs with
      | some a => some a
      | none => p (c :: cs)

/-- Exactly `n` characters satisfying `p` (regex `{n}` counted class). -/
def takeCount (p : Char → Bool) : Nat → List Char → Option (List Char × List Char)
  | 0, s => some ([], s)
  | _ + 1, [] => none
  | n + 1, c :: cs =>
    if p c then (takeCount p n cs).map (fun x => (c :: x.1, x.2)) else none

/-- One character satisfying `p`. -/
def takeOne (p : Char → Bool) : List Char → Option (List Char × List Char)
  | [] => none
  | c :: cs => if p c then some ([c], cs) else none

/-- One or more characters satisfying `p`, maximal munch (regex `+` where
the following literal cannot satisfy `p`, so no backtracking arises). -/
def takeMany1 (p : Char → Bool) : List Char → Option (List Char × List Char)
  | [] => none
  | c :: cs => if p c then some (c :: cs.takeWhile p, cs.dropWhile p) else none

/-- Sequencing of two matchers, concatenating their matched text. -/
def pseq (p q : List Char → Option (List Char × List Char)) (s : List Char) :
    Option (List Char × List Char) :=
  (p s).bind fun x => (q x.2).map fun y => (x.1 ++ y.1, y.2)

/-- JS `\w` character class. -/
def isWordChar (c : Char) : Bool := c.isAlphanum || c == '_'

/-- JS whitespace trimmed by `String.prototype.trim` (ASCII part). -/
def jsWhitespace (c : Char) : Bool :=
  c == ' ' || c == '\t' || c == '\n' || c == '\r' || c == '\x0b' || c == '\x0c'

/-- JS `String.prototype.trim`. -/
def jsTrim (s : String) : String :=
  ⟨((s.data.dropWhile jsWhitespace).reverse.dropWhile jsWhitespace).reverse⟩

/-- JS `String.prototype.includes`. -/
def containsSub (pat : String) (l : String) : Bool :=
  anySuffix (fun s => (dropPre pat.data s).isSome) l.data

/-- JS `String.prototype.replace` with a plain string pattern: replace the
first occurrence of `t` with the empty string. -/
def replaceFirstL (t : List Char) : List Char → List Char
  | [] => []
  | c :: cs =>
    match dropPre t (c :: cs) with
    | some r => r
    | none => c :: replaceFirstL t cs

/-- `message.replace(t, '')` on strings. -/
def replaceFirstStr (s t : String) : String := ⟨replaceFirstL t.data s.data⟩

/-- JS `String.prototype.padStart(n, c)`: left-pad to length `n`; a string
already at least `n` long is returned unchanged. -/
def padStart (s : String) (n : Nat) (c : Char) : String :=
  ⟨List.replicate (n - s.length) c ++ s.data⟩

/-- `padDigits` from reader.js: `String(number).padStart(digits, '0')`. -/
def padDigits (number : String) (digits : Nat) : String :=
  padStart number digits '0'

/-! ## Configuration (reader.js lines 43-48) -/

/-- `nconf.get('sendFunctionCode') || false` (absent key = `undefined`). -/
def effSendFunctionCode (configured : Option Bool) : Bool :=
  match configured with
  | some b => b || false
  | none => false

/-- `nconf.get('useTimestamp') || true` (absent key = `undefined`).
Note the JS `||`: a configured `false` is falsy, so the expression
evaluates to `true` regardless of the configured value. -/
def effUseTimestamp (configured : Option Bool) : Bool :=
  match configured with
  | some b => b || true
  | none => true

/-- The `EAS` configuration object (`nconf.get('EAS')`); the exclusion and
FIPS filters are consumed only by the opaque jSAME decoder and are folded
into its oracle. -/
structure EASConfig where
  addressAddType : Bool
deriving DecidableEq

/-- The configuration values reader.js reads at startup, with the two
boolean flags already passed through their `||` defaults. -/
structure Config where
  identifier : String
  sendFunctionCode : Bool
  useTimestamp : Bool
  easOpts : Option EASConfig

/-- Build a `Config` exactly the way the top of reader.js does. -/
def mkConfig (identifier : String) (sendFunctionCodeCfg useTimestampCfg : Option Bool)
    (easOpts : Option EASConfig) : Config :=
  ⟨identifier, effSendFunctionCode sendFunctionCodeCfg, effUseTimestamp useTimestampCfg, easOpts⟩

/-! ## Oracles for the external collaborators -/

/-- Result object of the opaque jSAME decoder. -/
structure EASRecord where
  llllOrg : String
  type : String
  message : String
deriving DecidableEq

/-- External collaborators: the clock (`moment().unix()`), timestamp
parsing (`moment(ts, fmts)` validity and conversion), and the opaque
jSAME decoder, which may return a result, no result, or throw. -/
structure Oracles where
  nowUnix : Int
  parseTs : String → Option Int
  samDecode : String → Except String (Option EASRecord)

/-! ## The regex constants of reader.js (lines 78-83), as scanners -/

/-- Matcher for `/POCSAG(\d+): Address: /` at one start position. -/
def pocsagTestAt (s : List Char) : Bool :=
  match dropPre "POCSAG".data s with
  | some r =>
    !(r.takeWhile Char.isDigit).isEmpty &&
      (dropPre ": Address: ".data (r.dropWhile Char.isDigit)).isSome
  | none => false

/-- `/POCSAG(\d+): Address: /.test(line)` (reader.js line 96). -/
def pocsagTest (l : String) : Bool := anySuffix pocsagTestAt l.data

/-- Common head of the POCSAG capture regexes: `POCSAG(\d+): Address:`
(no trailing space), returning the remainder. -/
def pocsagHdr (s : List Char) : Option (List Char) :=
  (dropPre "POCSAG".data s).bind fun r =>
    if (r.takeWhile Char.isDigit).isEmpty then none
    else dropPre ": Address:".data (r.dropWhile Char.isDigit)

/-- Matcher for `POCSAG_ADDRESS_REGEX = /POCSAG(\d+): Address:(.*?)Function/`
at one start position, returning capture group 2. -/
def pocsagAddrAt (s : List Char) : Option (List Char) :=
  (pocsagHdr s).bind fun r => (lazyCapture (dropPre "Function".data) r).map Prod.fst

/-- Capture group 2 of `POCSAG_ADDRESS_REGEX` on a whole line. -/
def pocsagAddrGroup (l : String) : Option String :=
  (searchSuffixes pocsagAddrAt l.data).map (⟨·⟩)

/-- `Function: (\d)` for `POCSAG_FUNCTION_REGEX`. -/
def funcDigitAt (s : List Char) : Option Char :=
  (dropPre "Function: ".data s).bind fun r =>
    match r with
    | c :: _ => if c.isDigit then some c else none
    | [] => none

/-- Matcher for `POCSAG_FUNCTION_REGEX = /POCSAG(\d+): Address:(.*?)Function: (\d)/`
at one start position, returning capture group 3. -/
def pocsagFuncAt (s : List Char) : Option Char :=
  (pocsagHdr s).bind fun r => (lazyCapture funcDigitAt r).map Prod.snd

/-- Capture group 3 of `POCSAG_FUNCTION_REGEX` on a whole line. -/
def pocsagFuncDigit (l : String) : Option Char :=
  searchSuffixes pocsagFuncAt l.data

/-- `/Alpha:(.*?)$/` / `/Numeric:(.*?)$/`: group 1 is everything after the
first occurrence of the marker (the match fails if a newline follows,
since JS `.` cannot cross it and `$` only matches at the very end). -/
def afterMarkerAt (pat : List Char) (s : List Char) : Option (List Char) :=
  (dropPre pat s).bind fun r => if r.any (· == '\n') then none else some r

/-- Capture group 1 of `/Alpha:(.*?)$/` on a whole line. -/
def alphaGroup (l : String) : Option String :=
  (searchSuffixes (afterMarkerAt "Alpha:".data) l.data).map (⟨·⟩)

/-- Capture group 1 of `/Numeric:(.*?)$/` on a whole line. -/
def numericGroup (l : String) : Option String :=
  (searchSuffixes (afterMarkerAt "Numeric:".data) l.data).map (⟨·⟩)

/-- `\d{2} \w+ \d{4} \d{2}:\d{2}:\d{2}` (`DD Month YYYY HH:MM:SS`). -/
def tsPat1 : List Char → Option (List Char × List Char) :=
  pseq (takeCount Char.isDigit 2) (pseq (takeOne (· == ' '))
    (pseq (takeMany1 isWordChar) (pseq (takeOne (· == ' '))
      (pseq (takeCount Char.isDigit 4) (pseq (takeOne (· == ' '))
        (pseq (takeCount Char.isDigit 2) (pseq (takeOne (· == ':'))
          (pseq (takeCount Char.isDigit 2) (pseq (takeOne (· == ':'))
            (takeCount Char.isDigit 2))))))))))

/-- `\d+-\d+-\d+ \d{2}:\d+:\d{2}` (the second POCSAG Alpha timestamp form,
reader.js line 120). -/
def tsPat2 : List Char → Option (List Char × List Char) :=
  pseq (takeMany1 Char.isDigit) (pseq (takeOne (· == '-'))
    (pseq (takeMany1 Char.isDigit) (pseq (takeOne (· == '-'))
      (pseq (takeMany1 Char.isDigit) (pseq (takeOne (· == ' '))
        (pseq (takeCount Char.isDigit 2) (pseq (takeOne (· == ':'))
          (pseq (takeMany1 Char.isDigit) (pseq (takeOne (· == ':'))
            (takeCount Char.isDigit 2))))))))))

/-- `message.match(re1) || message.match(re2)` for the POCSAG Alpha
embedded-timestamp search (reader.js lines 119-120): the matched text. -/
def tsSearch (m : String) : Option String :=
  match searchSuffixes (fun s => (tsPat1 s).map Prod.fst) m.data with
  | some t => some ⟨t⟩
  | none => (searchSuffixes (fun s => (tsPat2 s).map Prod.fst) m.data).map (⟨·⟩)

/-- `\d+-\d+-\d+ \d{2}:\d{2}:\d{2}` (the second FLEX timestamp form,
reader.js line 155). -/
def flexTsPat2 : List Char → Option (List Char × List Char) :=
  pseq (takeMany1 Char.isDigit) (pseq (takeOne (· == '-'))
    (pseq (takeMany1 Char.isDigit) (pseq (takeOne (· == '-'))
      (pseq (takeMany1 Char.isDigit) (pseq (takeOne (· == ' '))
        (pseq (takeCount Char.isDigit 2) (pseq (takeOne (· == ':'))
          (pseq (takeCount Char.isDigit 2) (pseq (takeOne (· == ':'))
            (takeCount Char.isDigit 2))))))))))

/-- `FLEX[:|] ?` followed by a timestamp body, returning the body (the
source strips the prefix from the match with
`timestampMatch[0].replace(/FLEX[:|] ?/, '')`). -/
def flexTsAt (pat : List Char → Option (List Char × List Char)) (s : List Char) :
    Option (List Char) :=
  (dropPre "FLEX".data s).bind fun r =>
    match r with
    | [] => none
    | c :: cs =>
      if c == ':' || c == '|' then
        match cs with
        | ' ' :: cs' =>
          match pat cs' with
          | some x => some x.1
          | none => (pat cs).map Prod.fst
        | _ => (pat cs).map Prod.fst
      else none

/-- The FLEX embedded-timestamp search (reader.js lines 154-157): the
matched timestamp with the `FLEX[:|] ?` prefix already removed. -/
def flexTsSearch (l : String) : Option String :=
  match searchSuffixes (flexTsAt tsPat1) l.data with
  | some t => some ⟨t⟩
  | none => (searchSuffixes (flexTsAt flexTsPat2) l.data).map (⟨·⟩)

/-- Lazy `(\d*?)` followed by a one-character class `[\]| ]`: the shortest
run of digits whose following character closes the group. -/
def flexDigits : List Char → Option (List Char)
  | [] => none
  | c :: cs =>
    if c = ']' ∨ c = '|' ∨ c = ' ' then some []
    else if c.isDigit then (flexDigits cs).map (c :: ·)
    else none

/-- Lazy `.*?[\[|](\d*?)[\]| ]`: scan left to right (never past a newline)
for the first opening character whose digit group completes. -/
def flexAddrScan : List Char → Option (List Char)
  | [] => none
  | c :: cs =>
    if c = '[' ∨ c = '|' then
      match flexDigits cs with
      | some g => some g
      | none => flexAddrScan cs
    else if c = '\n' then none
    else flexAddrScan cs

/-- Matcher for `FLEX_ADDRESS_REGEX = /FLEX[:|] ?.*?[\[|](\d*?)[\]| ]/` at
one start position, returning capture group 1 (the optional space can
always be absorbed by the lazy `.*?`, so it needs no separate branch). -/
def flexAddrAt (s : List Char) : Option (List Char) :=
  (dropPre "FLEX".data s).bind fun r =>
    match r with
    | [] => none
    | c :: cs => if c = ':' ∨ c = '|' then flexAddrScan cs else none

/-- Capture group 1 of `FLEX_ADDRESS_REGEX` on a whole line. -/
def flexAddrGroup (l : String) : Option String :=
  (searchSuffixes flexAddrAt l.data).map (⟨·⟩)

/-- `FLEX_ADDRESS_REGEX.test(line)` (reader.js line 144). -/
def flexAddrTest (l : String) : Bool := (flexAddrGroup l).isSome

/-- `...[ |](.+)` after the optional space: three arbitrary (non-newline)
characters, a space-or-pipe, then one or more characters to the end of
the line (greedy `.+` stops only at a newline). -/
def flexMsgThree (s : List Char) : Option (List Char) :=
  match s with
  | a :: b :: c :: d :: rest =>
    if a ≠ '\n' ∧ b ≠ '\n' ∧ c ≠ '\n' ∧ (d = ' ' ∨ d = '|') then
      let g := rest.takeWhile (· ≠ '\n')
      if g.isEmpty then none else some g
    else none
  | _ => none

/-- ` ?...[ |](.+)`: the greedy optional space prefers to be consumed, but
backtracks into the first of the three wildcard characters. -/
def flexMsgAfter (s : List Char) : Option (List Char) :=
  match s with
  | ' ' :: s' =>
    match flexMsgThree s' with
    | some g => some g
    | none => flexMsgThree s
  | _ => flexMsgThree s

/-- `[|\[][0-9 ]*[|\]] ?...[ |](.+)` at one position ( `[0-9 ]*` is maximal
munch because the closing class is disjoint from it). -/
def flexMsgTail (s : List Char) : Option (List Char) :=
  match s with
  | [] => none
  | c :: cs =>
    if c = '|' ∨ c = '[' then
      match cs.dropWhile (fun x => x.isDigit || x == ' ') with
      | c2 :: cs2 => if c2 = '|' ∨ c2 = ']' then flexMsgAfter cs2 else none
      | [] => none
    else none

/-- Matcher for
`FLEX_MESSAGE_REGEX = /FLEX[:|].*[|\[][0-9 ]*[|\]] ?...[ |](.+)/`
at one start position: greedy `.*` picks the rightmost completing tail. -/
def flexMsgAt (s : List Char) : Option (List Char) :=
  (dropPre "FLEX".data s).bind fun r =>
    match r with
    | [] => none
    | c :: cs => if c = ':' ∨ c = '|' then greedyScanLast flexMsgTail cs else none

/-- Capture group 1 of `FLEX_MESSAGE_REGEX` on a whole line. -/
def flexMsgGroup (l : String) : Option String :=
  (searchSuffixes flexMsgAt l.data).map (⟨·⟩)

/-- `ALN_GPN_NUM_REGEX = /([ |]ALN[ |]|[ |]GPN[ |]|[ |]NUM[ |])/` at one
start position. -/
def alnAt (s : List Char) : Option Unit :=
  match s with
  | [] => none
  | c :: cs =>
    if c = ' ' ∨ c = '|' then
      match dropPre "ALN".data cs with
      | some r => (fun c2 => if c2 = ' ' ∨ c2 = '|' then some () else none) <$> r.head? |>.join
      | none =>
        match dropPre "GPN".data cs with
        | some r => (fun c2 => if c2 = ' ' ∨ c2 = '|' then some () else none) <$> r.head? |>.join
        | none =>
          match dropPre "NUM".data cs with
          | some r => (fun c2 => if c2 = ' ' ∨ c2 = '|' then some () else none) <$> r.head? |>.join
          | none => none
    else none

/-- `ALN_GPN_NUM_REGEX.test(line)` (reader.js line 164). -/
def alnTest (l : String) : Bool := (searchSuffixes alnAt l.data).isSome

/-- `/[ |][0-9]{4}\/[0-9]\/X\/.[ |]/` at one start position (`X` is the
literal `F`, `C` or `K`). -/
def fragCodeAt (x : Char) : List Char → Bool
  | a :: d1 :: d2 :: d3 :: d4 :: '/' :: d5 :: '/' :: y :: '/' :: w :: b :: _ =>
    (a == ' ' || a == '|') && d1.isDigit && d2.isDigit && d3.isDigit && d4.isDigit &&
      d5.isDigit && y == x && w != '\n' && (b == ' ' || b == '|')
  | _ => false

/-- `line.match(/[ |][0-9]{4}\/[0-9]\/X\/.[ |]/)` used as a boolean
(reader.js lines 168, 173, 177). -/
def hasFragCode (x : Char) (l : String) : Bool := anySuffix (fragCodeAt x) l.data

/-- `EAS_REGEX = /(EAS[:|]|ZCZC-)/.test(line)` (reader.js line 190). -/
def easTest (l : String) : Bool :=
  containsSub "EAS:" l || containsSub "EAS|" l || containsSub "ZCZC-" l

/-! ## Data model -/

/-- The global mutable fragment map `let frag = {}` (reader.js line 75). -/
def FragMap : Type := String → Option String

/-- `frag[address] = message`. -/
def fragInsert (f : FragMap) (a v : String) : FragMap :=
  fun k => if k = a then some v else f k

/-- `delete frag[address]`. -/
def fragErase (f : FragMap) (a : String) : FragMap :=
  fun k => if k = a then none else f k

/-- The canonical output record posted to the server (reader.js 218-223). -/
structure PagingMessage where
  address : String
  message : String
  datetime : Int
  source : String
deriving DecidableEq

/-- The `(address, message, trimMessage, datetime)` state of one line
handler run just before the emission filter, together with the fragment
map as left by the branch that ran. -/
structure Decoded where
  address : String
  message : Option String
  trimMessage : String
  datetime : Int
  frag : FragMap

/-! ## Per-family decoders (the branches of the `rl.on('line')` handler) -/

/-- Alpha-payload timestamp extraction (reader.js lines 118-128): returns
the possibly timestamp-stripped message and the datetime. -/
def pocsagAlphaTs (cfg : Config) (oc : Oracles) (m0 : String) : String × Int :=
  if cfg.useTimestamp then
    match tsSearch m0 with
    | some ts =>
      match oc.parseTs ts with
      | some u => (jsTrim (replaceFirstStr m0 ts), u)
      | none => (m0, oc.nowUnix)
    | none => (m0, oc.nowUnix)
  else (m0, oc.nowUnix)

/-- Strip `<XXX>` control tokens globally (reader.js lines 129 and 137):
a non-overlapping left-to-right scan for `<` + three ASCII letters + `>`. -/
def stripTokens : List Char → List Char
  | '<' :: a :: b :: c :: '>' :: rest =>
    if a.isAlpha ∧ b.isAlpha ∧ c.isAlpha then stripTokens rest
    else '<' :: stripTokens (a :: b :: c :: '>' :: rest)
  | c :: rest => c :: stripTokens rest
  | [] => []

/-- `.replace(/Ä/g, '[').replace(/Ü/g, ']')`. -/
def normAccents (s : List Char) : List Char :=
  s.map fun c => if c = 'Ä' then '[' else if c = 'Ü' then ']' else c

/-- The Alpha `trimMessage` normalisation (reader.js line 129). -/
def normalizeAlpha (m : String) : String := jsTrim ⟨normAccents (stripTokens m.data)⟩

/-- The Numeric `trimMessage` normalisation (reader.js line 137 - note the
source applies no final trim here). -/
def normalizeNumeric (m : String) : String := ⟨normAccents (stripTokens m.data)⟩

/-- The POCSAG branch (reader.js lines 96-142). -/
def pocsagDecode (cfg : Config) (oc : Oracles) (frag : FragMap) (l : String) : Decoded :=
  match pocsagAddrGroup l with
  | none => ⟨"", none, "", oc.nowUnix, frag⟩
  | some a2 =>
    if a2 = "" then ⟨"", none, "", oc.nowUnix, frag⟩
    else
      let addr0 := jsTrim a2
      let address :=
        if cfg.sendFunctionCode then
          match pocsagFuncDigit l with
          | some d => addr0.push d
          | none => addr0
        else addr0
      if containsSub "Alpha:" l then
        match alphaGroup l with
        | some rest =>
          if rest = "" then ⟨address, none, "", oc.nowUnix, frag⟩
          else
            let p := pocsagAlphaTs cfg oc (jsTrim rest)
            ⟨address, some p.1, normalizeAlpha p.1, p.2, frag⟩
        | none => ⟨address, none, "", oc.nowUnix, frag⟩
      else if containsSub "Numeric:" l then
        match numericGroup l with
        | some rest =>
          if rest = "" then ⟨address, none, "", oc.nowUnix, frag⟩
          else ⟨address, some (jsTrim rest), normalizeNumeric (jsTrim rest), oc.nowUnix, frag⟩
        | none => ⟨address, none, "", oc.nowUnix, frag⟩
      else ⟨address, none, "", oc.nowUnix, frag⟩

/-- The FLEX timestamp resolution (reader.js lines 153-162). -/
def flexDatetime (cfg : Config) (oc : Oracles) (l : String) : Int :=
  if cfg.useTimestamp then
    match flexTsSearch l with
    | some ts =>
      match oc.parseTs ts with
      | some u => u
      | none => oc.nowUnix
    | none => oc.nowUnix
  else oc.nowUnix

/-- The FLEX branch (reader.js lines 144-188), including the fragment
store interaction. -/
def flexDecode (cfg : Config) (oc : Oracles) (frag : FragMap) (l : String) : Decoded :=
  match flexAddrGroup l with
  | none => ⟨"", none, "", oc.nowUnix, frag⟩
  | some g =>
    if g = "" then ⟨"", none, "", oc.nowUnix, frag⟩
    else
      let address := jsTrim g
      let dt := flexDatetime cfg oc l
      if alnTest l then
        match flexMsgGroup l with
        | some t =>
          if t = "" then ⟨address, none, "", dt, frag⟩
          else
            let msg := jsTrim t
            if hasFragCode 'F' l then
              ⟨address, none, "", dt, fragInsert frag address msg⟩
            else if hasFragCode 'C' l then
              ⟨address, some msg, ((frag address).getD "") ++ msg, dt, fragErase frag address⟩
            else ⟨address, some msg, msg, dt, frag⟩
        | none => ⟨address, none, "", dt, frag⟩
      else ⟨address, none, "", dt, frag⟩

/-- The EAS branch (reader.js lines 190-204).  Reading
`EASOpts.excludeEvents` when the `EAS` configuration object is absent
throws a TypeError, and the opaque decoder itself may throw. -/
def easDecode (cfg : Config) (oc : Oracles) (frag : FragMap) (l : String) :
    Except String Decoded :=
  match cfg.easOpts with
  | none => .error "TypeError: cannot read properties of undefined"
  | some eo =>
    match oc.samDecode l with
    | .error e => .error e
    | .ok none => .ok ⟨"", none, "", oc.nowUnix, frag⟩
    | .ok (some dm) =>
      .ok ⟨if eo.addressAddType then dm.llllOrg ++ "-" ++ dm.type else dm.llllOrg,
        some dm.message, dm.message, oc.nowUnix, frag⟩

/-! ## Dispatch, normalisation, the per-line handler and the line loop -/

/-- Protocol family of a raw line. -/
inductive Family
  | POCSAG
  | FLEX
  | EAS
  | UNKNOWN
deriving DecidableEq

/-- The fixed-precedence classification implied by the
`if / else if / else if / else` chain of the handler. -/
def classify (l : String) : Family :=
  if pocsagTest l then .POCSAG
  else if flexAddrTest l then .FLEX
  else if easTest l then .EAS
  else .UNKNOWN

/-- The `if / else if / else if / else` chain of `rl.on('line')`
(reader.js lines 96, 144, 190, 206). -/
def dispatch (cfg : Config) (oc : Oracles) (frag : FragMap) (l : String) :
    Except String Decoded :=
  if pocsagTest l then .ok (pocsagDecode cfg oc frag l)
  else if flexAddrTest l then .ok (flexDecode cfg oc frag l)
  else if easTest l then easDecode cfg oc frag l
  else .ok ⟨"", none, "", oc.nowUnix, frag⟩

/-- The emission filter and payload construction (reader.js lines 213-229):
`if (address.length > 2 && message)` - `message` is either `false` or a
string, and a string is truthy exactly when non-empty. -/
def normalize (cfg : Config) (d : Decoded) : FragMap × Option PagingMessage :=
  match d.message with
  | some s =>
    if d.address.length > 2 ∧ s ≠ "" then
      (d.frag, some ⟨padDigits d.address 7, d.trimMessage, d.datetime, cfg.identifier⟩)
    else (d.frag, none)
  | none => (d.frag, none)

/-- The body of the `try` block: everything that runs for one line, with
exceptions surfaced as `Except.error`. -/
def lineBody (cfg : Config) (oc : Oracles) (frag : FragMap) (l : String) :
    Except String (FragMap × Option PagingMessage) :=
  match dispatch cfg oc frag l with
  | .ok d => .ok (normalize cfg d)
  | .error e => .error e

/-- One full `rl.on('line')` callback (reader.js lines 86-233): the
try/catch logs an error and otherwise leaves the state untouched. -/
def handleLine (cfg : Config) (oc : Oracles) (frag : FragMap) (l : String) :
    FragMap × Option PagingMessage :=
  match lineBody cfg oc frag l with
  | .ok r => r
  | .error _ => (frag, none)

/-- The line loop: process a list of input lines in order, collecting every
payload handed to `sendPage`. -/
def processLines (cfg : Config) (oc : Oracles) :
    FragMap → List String → FragMap × List PagingMessage
  | frag, [] => (frag, [])
  | frag, l :: ls =>
    match handleLine cfg oc frag l with
    | (frag1, m?) =>
      match processLines cfg oc frag1 ls with
      | (frag2, ms) =>
        (frag2, match m? with | some m => m :: ms | none => ms)

/-! ## DeliverySender (`sendPage`, reader.js lines 239-267) -/

/-- Observable events of one message's delivery: an HTTP attempt carrying
the current `retries` counter, a scheduled retry delay, or the terminal
give-up diagnostic. -/
inductive SendEvent
  | attempt (retries : Nat)
  | scheduled (delayMs : Nat)
  | giveUp
deriving DecidableEq

/-- The event trace of `sendPage(message, retries)` given a transport
oracle saying whether the attempt with a given `retries` value fails:
on failure with `retries < 10` schedule `2^retries * 1000` ms and recurse
with `retries + 1`; at `retries = 10` give up. -/
def sendPageTrace (failing : Nat → Bool) (retries : Nat) : List SendEvent :=
  .attempt retries ::
    (if failing retries then
      (if _h : retries < 10 then
        .scheduled (2 ^ retries * 1000) :: sendPageTrace failing (retries + 1)
      else [.giveUp])
    else [])
termination_by 10 - retries
decreasing_by omega

/-- The scheduled retry delays, in order, of a delivery started with
`sendPage(form, 0)`. -/
def retryDelays (failing : Nat → Bool) : List Nat :=
  (sendPageTrace failing 0).filterMap fun e =>
    match e with
    | .scheduled d => some d
    | _ => none

/-- Whether an event is a retry attempt (an attempt with `retries ≥ 1`;
the attempt with `retries = 0` is the initial send). -/
def isRetryAttempt : SendEvent → Bool
  | .attempt (_ + 1) => true
  | _ => false

/-- Number of retry attempts in a delivery started with `sendPage(form, 0)`. -/
def retryAttemptCount (failing : Nat → Bool) : Nat :=
  ((sendPageTrace failing 0).filter isRetryAttempt).length

/-! ## Concrete fixtures used by witnesses and counterexamples -/

/-- Oracles for concrete runs: fixed clock, a `moment` oracle that accepts
nothing, and a SAME decoder that decodes nothing and never throws. -/
def testOr : Oracles := ⟨1760227200, fun _ => none, fun _ => .ok none⟩

/-- Effective configuration of a default run (`sendFunctionCode` false,
`useTimestamp` effectively true, EAS config present). -/
def testCfg : Config := ⟨"test", false, true, some ⟨true⟩⟩

/-- Effective configuration of a run whose config file has no `EAS` object. -/
def cfgNoEas : Config := ⟨"test", false, true, none⟩

/-! ## General helper lemmas -/

/-- Length of `padStart`: the string is padded up to `n`, never truncated. -/
theorem padDigits_length (s : String) (n : Nat) :
    (padDigits s n).length = max n s.length := by
  unfold padDigits padStart
  have hmk : ∀ (l : List Char), (String.mk l).length = l.length := fun _ => rfl
  have hs : s.length = s.data.length := rfl
  rw [hmk, List.length_append, List.length_replicate, ← hs]
  omega

/-- Storing under a key and reading it back. -/
theorem fragInsert_self (f : FragMap) (a v : String) : fragInsert f a v a = some v := by
  simp [fragInsert]

/-- Erasing a key removes it. -/
theorem fragErase_self (f : FragMap) (a : String) : fragErase f a a = none := by
  simp [fragErase]

/-- If the dispatched branch returned normally, the handler result is the
normalised branch result. -/
theorem handleLine_ok {cfg : Config} {oc : Oracles} {frag : FragMap} {l : String} {d : Decoded}
    (hd : dispatch cfg oc frag l = .ok d) :
    handleLine cfg oc frag l = normalize cfg d := by
  unfold handleLine lineBody
  rw [hd]

/-- If the dispatched branch threw, the handler catches and leaves the
state untouched with no emission. -/
theorem handleLine_err {cfg : Config} {oc : Oracles} {frag : FragMap} {l : String} {e : String}
    (hd : dispatch cfg oc frag l = .error e) :
    handleLine cfg oc frag l = (frag, none) := by
  unfold handleLine lineBody
  rw [hd]

/-- The emission filter never changes the fragment map. -/
theorem normalize_fst (cfg : Config) (d : Decoded) : (normalize cfg d).1 = d.frag := by
  unfold normalize
  split
  · split <;> rfl
  · rfl

/-- Anatomy of an emission: whenever the handler hands a payload to
`sendPage`, the dispatched branch produced a truthy (present, non-empty)
`message`, an address longer than 2 characters, and the payload is built
from the branch's `trimMessage`, zero-padded address and datetime. -/
theorem emit_inv {cfg : Config} {oc : Oracles} {frag frag' : FragMap} {l : String}
    {m : PagingMessage} (h : handleLine cfg oc frag l = (frag', some m)) :
    ∃ d, dispatch cfg oc frag l = .ok d ∧ ∃ s, d.message = some s ∧ s ≠ "" ∧
      d.address.length > 2 ∧
      m = ⟨padDigits d.address 7, d.trimMessage, d.datetime, cfg.identifier⟩ ∧
      frag' = d.frag := by
  rcases hd : dispatch cfg oc frag l with e | d
  · rw [handleLine_err hd] at h
    exact absurd (congrArg Prod.snd h) (by simp)
  · rw [handleLine_ok hd] at h
    refine ⟨d, rfl, ?_⟩
    unfold normalize at h
    rcases hm : d.message with _ | s
    · simp only [hm] at h
      exact absurd (congrArg Prod.snd h) (by simp)
    · simp only [hm] at h
      by_cases hc : d.address.length > 2 ∧ s ≠ ""
      · rw [if_pos hc] at h
        exact ⟨s, rfl, hc.2, hc.1, (Option.some.inj (congrArg Prod.snd h)).symm,
          (congrArg Prod.fst h).symm⟩
      · rw [if_neg hc] at h
        exact absurd (congrArg Prod.snd h) (by simp)

/-- With POCSAG not matching and the FLEX address regex matching, the FLEX
branch (and only it) runs. -/
theorem dispatch_flex {cfg : Config} {oc : Oracles} {frag : FragMap} {l : String}
    (hp : pocsagTest l = false) (hf : flexAddrTest l = true) :
    dispatch cfg oc frag l = .ok (flexDecode cfg oc frag l) := by
  simp [dispatch, hp, hf]

/-- The FLEX branch on a fragment-start frame (`X = F`): store the trimmed
text under the address, report no message. -/
theorem flexDecode_F {cfg : Config} {oc : Oracles} {frag : FragMap} {l : String} {g t : String}
    (hf : flexAddrGroup l = some g) (hg : g ≠ "") (ha : alnTest l = true)
    (hm : flexMsgGroup l = some t) (ht : t ≠ "") (hF : hasFragCode 'F' l = true) :
    flexDecode cfg oc frag l =
      ⟨jsTrim g, none, "", flexDatetime cfg oc l, fragInsert frag (jsTrim g) (jsTrim t)⟩ := by
  simp [flexDecode, hf, hg, ha, hm, ht, hF]

/-- The FLEX branch on a completion frame (`X = C`): concatenate the stored
partial (empty if none) with the trimmed text, erase the entry. -/
theorem flexDecode_C {cfg : Config} {oc : Oracles} {frag : FragMap} {l : String} {g t : String}
    (hf : flexAddrGroup l = some g) (hg : g ≠ "") (ha : alnTest l = true)
    (hm : flexMsgGroup l = some t) (ht : t ≠ "") (hF : hasFragCode 'F' l = false)
    (hC : hasFragCode 'C' l = true) :
    flexDecode cfg oc frag l =
      ⟨jsTrim g, some (jsTrim t), ((frag (jsTrim g)).getD "") ++ jsTrim t,
        flexDatetime cfg oc l, fragErase frag (jsTrim g)⟩ := by
  simp [flexDecode, hf, hg, ha, hm, ht, hF, hC]

/-- The FLEX branch on any other frame: a complete message, fragment map
untouched. -/
theorem flexDecode_K {cfg : Config} {oc : Oracles} {frag : FragMap} {l : String} {g t : String}
    (hf : flexAddrGroup l = some g) (hg : g ≠ "") (ha : alnTest l = true)
    (hm : flexMsgGroup l = some t) (ht : t ≠ "") (hF : hasFragCode 'F' l = false)
    (hC : hasFragCode 'C' l = false) :
    flexDecode cfg oc frag l =
      ⟨jsTrim g, some (jsTrim t), jsTrim t, flexDatetime cfg oc l, frag⟩ := by
  simp [flexDecode, hf, hg, ha, hm, ht, hF, hC]

/-! ## Claim C2 (DeliverySender retry bound and schedule) -/

/-- C2: for a message whose initial send and every re-attempt fail,
`sendPage(form, 0)` produces the initial attempt followed by exactly 10
retry attempts, the retries scheduled with delays
`2^retryCount * 1000` ms, i.e. 1000, 2000, ..., 512000 ms in that order,
and after the attempt with `retries = 10` it gives up: there is no 11th
retry attempt. -/
theorem C2_theorem :
    sendPageTrace (fun _ => true) 0 =
      [.attempt 0, .scheduled 1000, .attempt 1, .scheduled 2000, .attempt 2,
       .scheduled 4000, .attempt 3, .scheduled 8000, .attempt 4, .scheduled 16000,
       .attempt 5, .scheduled 32000, .attempt 6, .scheduled 64000, .attempt 7,
       .scheduled 128000, .attempt 8, .scheduled 256000, .attempt 9,
       .scheduled 512000, .attempt 10, .giveUp] ∧
    retryDelays (fun _ => true) =
      [1000, 2000, 4000, 8000, 16000, 32000, 64000, 128000, 256000, 512000] ∧
    retryAttemptCount (fun _ => true) = 10 := by
  have step : ∀ r : Nat, r < 10 → sendPageTrace (fun _ => true) r =
      .attempt r :: .scheduled (2 ^ r * 1000) :: sendPageTrace (fun _ => true) (r + 1) := by
    intro r hr
    conv_lhs => rw [sendPageTrace]
    simp [hr]
  have last : sendPageTrace (fun _ => true) 10 = [.attempt 10, .giveUp] := by
    conv_lhs => rw [sendPageTrace]
    simp
  have htr : sendPageTrace (fun _ => true) 0 =
      [.attempt 0, .scheduled 1000, .attempt 1, .scheduled 2000, .attempt 2,
       .scheduled 4000, .attempt 3, .scheduled 8000, .attempt 4, .scheduled 16000,
       .attempt 5, .scheduled 32000, .attempt 6, .scheduled 64000, .attempt 7,
       .scheduled 128000, .attempt 8, .scheduled 256000, .attempt 9,
       .scheduled 512000, .attempt 10, .giveUp] := by
    rw [step 0 (by omega), step 1 (by omega), step 2 (by omega), step 3 (by omega),
      step 4 (by omega), step 5 (by omega), step 6 (by omega), step 7 (by omega),
      step 8 (by omega), step 9 (by omega), last]
    norm_num
  refine ⟨htr, ?_, ?_⟩
  · rw [retryDelays, htr]
    decide
  · rw [retryAttemptCount, htr]
    decide

/-! ## Claim C3 (the useTimestamp flag) -/

/-- C3: the claim states the effective timestamp-extraction flag equals the
configured `useTimestamp` value when present (so that configuring `false`
disables extraction).  The code computes
`nconf.get('useTimestamp') || true`, and JavaScript `||` takes the right
operand for a falsy left operand, so a configured `false` still yields
`true`: the effective flag is `true` for every configuration and
timestamp extraction can never be disabled.  This theorem evaluates the
code at the failing configuration. -/
theorem C3_theorem :
    effUseTimestamp (some false) = true ∧
    (∀ c : Option Bool, effUseTimestamp c = true) ∧
    (∀ (idf : String) (s : Option Bool) (e : Option EASConfig),
      (mkConfig idf s (some false) e).useTimestamp = true) := by
  refine ⟨rfl, fun c => ?_, fun _ _ _ => rfl⟩
  rcases c with _ | b
  · rfl
  · cases b <;> rfl

/-! ## Claim C6 (FragmentStore invariant) -/

/-- C6: the fragment store holds at most one pending fragment per address
(it is a map keyed by address, so this is structural); on a FLEX frame
that reaches message extraction, a fragmentation code with `X = F` stores
the extracted (trimmed) text under the address - overwriting any prior
entry - and emits no message; `X = C` removes the address's entry; any
other code leaves the store unchanged. -/
theorem C6_theorem (cfg : Config) (oc : Oracles) (frag : FragMap) (l g t : String)
    (hp : pocsagTest l = false) (hf : flexAddrGroup l = some g) (hg : g ≠ "")
    (ha : alnTest l = true) (hm : flexMsgGroup l = some t) (ht : t ≠ "") :
    (hasFragCode 'F' l = true →
      handleLine cfg oc frag l = (fragInsert frag (jsTrim g) (jsTrim t), none)) ∧
    (hasFragCode 'F' l = false → hasFragCode 'C' l = true →
      (handleLine cfg oc frag l).1 = fragErase frag (jsTrim g)) ∧
    (hasFragCode 'F' l = false → hasFragCode 'C' l = false →
      (handleLine cfg oc frag l).1 = frag) := by
  have hft : flexAddrTest l = true := by simp [flexAddrTest, hf]
  refine ⟨fun hF => ?_, fun hF hC => ?_, fun hF hC => ?_⟩
  · rw [handleLine_ok (dispatch_flex hp hft), flexDecode_F hf hg ha hm ht hF]
    rfl
  · rw [handleLine_ok (dispatch_flex hp hft), flexDecode_C hf hg ha hm ht hF hC, normalize_fst]
  · rw [handleLine_ok (dispatch_flex hp hft), flexDecode_K hf hg ha hm ht hF hC, normalize_fst]

/-- C6 witness: concrete F, C and K frames for address `0012345`. -/
theorem C6_witness :
    flexAddrGroup "FLEX|1600/2/F/A|[0012345] ALN HELLO " = some "0012345" ∧
    hasFragCode 'F' "FLEX|1600/2/F/A|[0012345] ALN HELLO " = true ∧
    handleLine testCfg testOr (fun _ => none) "FLEX|1600/2/F/A|[0012345] ALN HELLO " =
      (fragInsert (fun _ => none) (jsTrim "0012345") (jsTrim "HELLO "), none) ∧
    (handleLine testCfg testOr (fun _ => none) "FLEX|1600/2/C/A|[0012345] ALN WORLD").1 =
      fragErase (fun _ => none) (jsTrim "0012345") ∧
    (handleLine testCfg testOr (fun _ => none) "FLEX|1600/2/K/A|[0012345] ALN FULLMSG").1 =
      (fun _ => none) := by
  refine ⟨rfl, rfl, ?_, ?_, ?_⟩
  · exact (C6_theorem testCfg testOr (fun _ => none)
      "FLEX|1600/2/F/A|[0012345] ALN HELLO " "0012345" "HELLO "
      rfl rfl (by decide) rfl rfl (by decide)).1 rfl
  · exact (C6_theorem testCfg testOr (fun _ => none)
      "FLEX|1600/2/C/A|[0012345] ALN WORLD" "0012345" "WORLD"
      rfl rfl (by decide) rfl rfl (by decide)).2.1 rfl rfl
  · exact (C6_theorem testCfg testOr (fun _ => none)
      "FLEX|1600/2/K/A|[0012345] ALN FULLMSG" "0012345" "FULLMSG"
      rfl rfl (by decide) rfl rfl (by decide)).2.2 rfl rfl

/-! ## Claim C1 (FLEX fragment round trip) -/

/-- C1 counterexample: the claim predicts that an F frame whose extracted
text is `"HELLO "` followed by a C frame with text `"WORLD"` emits
`"HELLO WORLD"`.  On the code, the fragment text is trimmed before being
stored (`message = messageMatch[1].trim()`), so the single emitted
message is `"HELLOWORLD"` - the inter-fragment space is lost. -/
theorem C1_counterexample :
    flexMsgGroup "FLEX|1600/2/F/A|[0012345] ALN HELLO " = some "HELLO " ∧
    (processLines testCfg testOr (fun _ => none)
        ["FLEX|1600/2/F/A|[0012345] ALN HELLO ",
         "FLEX|1600/2/C/A|[0012345] ALN WORLD"]).2.map PagingMessage.message =
      ["HELLOWORLD"] ∧
    "HELLOWORLD" ≠ "HELLO WORLD" := by
  exact ⟨rfl, rfl, by decide⟩

/-- C1 (amended): an F frame for an address followed by a C frame for the
same address yields exactly one emitted message whose text is the
concatenation of the two frames' *trimmed* texts (so a trailing space on
the fragment is lost), and afterwards the FragmentStore holds no entry
for the address. -/
theorem C1_theorem (cfg : Config) (oc : Oracles) (frag : FragMap) (l1 l2 g t1 t2 : String)
    (h1p : pocsagTest l1 = false) (h1f : flexAddrGroup l1 = some g) (hg : g ≠ "")
    (h1a : alnTest l1 = true) (h1m : flexMsgGroup l1 = some t1) (ht1 : t1 ≠ "")
    (h1F : hasFragCode 'F' l1 = true)
    (h2p : pocsagTest l2 = false) (h2f : flexAddrGroup l2 = some g)
    (h2a : alnTest l2 = true) (h2m : flexMsgGroup l2 = some t2) (ht2 : t2 ≠ "")
    (h2F : hasFragCode 'F' l2 = false) (h2C : hasFragCode 'C' l2 = true)
    (haddr : (jsTrim g).length > 2) (ht2t : jsTrim t2 ≠ "") :
    processLines cfg oc frag [l1, l2] =
      (fragErase (fragInsert frag (jsTrim g) (jsTrim t1)) (jsTrim g),
        [⟨padDigits (jsTrim g) 7, jsTrim t1 ++ jsTrim t2, flexDatetime cfg oc l2,
          cfg.identifier⟩]) ∧
    fragErase (fragInsert frag (jsTrim g) (jsTrim t1)) (jsTrim g) (jsTrim g) = none := by
  have h1 : handleLine cfg oc frag l1 = (fragInsert frag (jsTrim g) (jsTrim t1), none) := by
    rw [handleLine_ok (dispatch_flex h1p (by simp [flexAddrTest, h1f])),
      flexDecode_F h1f hg h1a h1m ht1 h1F]
    rfl
  have h2 : handleLine cfg oc (fragInsert frag (jsTrim g) (jsTrim t1)) l2 =
      (fragErase (fragInsert frag (jsTrim g) (jsTrim t1)) (jsTrim g),
        some ⟨padDigits (jsTrim g) 7, jsTrim t1 ++ jsTrim t2, flexDatetime cfg oc l2,
          cfg.identifier⟩) := by
    rw [handleLine_ok (dispatch_flex h2p (by simp [flexAddrTest, h2f])),
      flexDecode_C h2f hg h2a h2m ht2 h2F h2C]
    simp only [normalize, fragInsert_self, Option.getD_some]
    rw [if_pos ⟨haddr, ht2t⟩]
  refine ⟨?_, fragErase_self _ _⟩
  simp only [processLines, h1, h2]

/-- C1 witness: the amended round trip at the concrete frames. -/
theorem C1_witness :
    processLines testCfg testOr (fun _ => none)
        ["FLEX|1600/2/F/A|[0012345] ALN HELLO ",
         "FLEX|1600/2/C/A|[0012345] ALN WORLD"] =
      (fragErase (fragInsert (fun _ => none) (jsTrim "0012345") (jsTrim "HELLO "))
          (jsTrim "0012345"),
        [⟨padDigits (jsTrim "0012345") 7, jsTrim "HELLO " ++ jsTrim "WORLD",
          flexDatetime testCfg testOr "FLEX|1600/2/C/A|[0012345] ALN WORLD",
          testCfg.identifier⟩]) ∧
    fragErase (fragInsert (fun _ => none) (jsTrim "0012345") (jsTrim "HELLO "))
        (jsTrim "0012345") (jsTrim "0012345") = none := by
  refine ⟨?_, ?_⟩
  · exact (C1_theorem testCfg testOr (fun _ => none)
      "FLEX|1600/2/F/A|[0012345] ALN HELLO " "FLEX|1600/2/C/A|[0012345] ALN WORLD"
      "0012345" "HELLO " "WORLD"
      rfl rfl (by decide) rfl rfl (by decide) rfl rfl rfl rfl rfl (by decide) rfl rfl
      (by decide) (by decide)).1
  · exact (C1_theorem testCfg testOr (fun _ => none)
      "FLEX|1600/2/F/A|[0012345] ALN HELLO " "FLEX|1600/2/C/A|[0012345] ALN WORLD"
      "0012345" "HELLO " "WORLD"
      rfl rfl (by decide) rfl rfl (by decide) rfl rfl rfl rfl rfl (by decide) rfl rfl
      (by decide) (by decide)).2

/-! ## Claim C4 (address zero-padding) -/

/-- C4 counterexample: the claim states every emitted address has length
exactly 7.  `padStart` never truncates, so a decoded 8-digit address is
emitted with length 8. -/
theorem C4_counterexample :
    (handleLine testCfg testOr (fun _ => none)
        "POCSAG512: Address: 12345678 Function: 3 Alpha: HI").2 =
      some ⟨"12345678", "HI", 1760227200, "test"⟩ ∧
    ("12345678" : String).length ≠ 7 := by
  exact ⟨rfl, by decide⟩

/-- C4 (amended): every emitted address equals the decoded address
left-padded with zeros to width 7, hence has length `max 7 n` where `n`
is the decoded address's length (7 exactly when the decoded address has
at most 7 characters); in particular `"123"` normalises to `"0000123"`. -/
theorem C4_theorem {cfg : Config} {oc : Oracles} {frag frag' : FragMap} {l : String}
    {m : PagingMessage} (h : handleLine cfg oc frag l = (frag', some m)) :
    (∃ d, dispatch cfg oc frag l = .ok d ∧ m.address = padDigits d.address 7 ∧
      m.address.length = max 7 d.address.length) ∧
    padDigits "123" 7 = "0000123" := by
  obtain ⟨d, hd, s, hs, hne, hlen, hm, hfr⟩ := emit_inv h
  subst hm
  exact ⟨⟨d, hd, rfl, padDigits_length d.address 7⟩, by decide⟩

/-- C4 witness: the claim's own example address `"123"`. -/
theorem C4_witness :
    (handleLine testCfg testOr (fun _ => none)
        "POCSAG512: Address: 123 Function: 3 Alpha: OK").2 =
      some ⟨"0000123", "OK", 1760227200, "test"⟩ ∧
    (∃ d, dispatch testCfg testOr (fun _ => none)
        "POCSAG512: Address: 123 Function: 3 Alpha: OK" = .ok d ∧
      (⟨"0000123", "OK", 1760227200, "test"⟩ : PagingMessage).address =
        padDigits d.address 7 ∧
      (⟨"0000123", "OK", 1760227200, "test"⟩ : PagingMessage).address.length =
        max 7 d.address.length) ∧
    padDigits "123" 7 = "0000123" := by
  have h2 : (handleLine testCfg testOr (fun _ => none)
      "POCSAG512: Address: 123 Function: 3 Alpha: OK").2 =
      some ⟨"0000123", "OK", 1760227200, "test"⟩ := rfl
  have h : handleLine testCfg testOr (fun _ => none)
      "POCSAG512: Address: 123 Function: 3 Alpha: OK" =
      ((handleLine testCfg testOr (fun _ => none)
          "POCSAG512: Address: 123 Function: 3 Alpha: OK").1,
        some ⟨"0000123", "OK", 1760227200, "test"⟩) := by
    rw [← h2]
  exact ⟨h2, (C4_theorem h).1, (C4_theorem h).2⟩

/-! ## Claim C5 (emitted message non-empty) -/

/-- C5 counterexample: the emission filter checks the truthiness of the
raw decoded `message`, but the payload carries `trimMessage`; stripping
a `<XXX>` control token can leave `trimMessage` empty while `message`
is truthy, so a PagingMessage with an empty `message` field is emitted. -/
theorem C5_counterexample :
    (handleLine testCfg testOr (fun _ => none)
        "POCSAG512: Address: 1234 Function: 0 Alpha:<ABC>").2 =
      some ⟨"0001234", "", 1760227200, "test"⟩ ∧
    (handleLine testCfg testOr (fun _ => none)
        "POCSAG512: Address: 1234 Function: 0 Alpha:<ABC>").2.map PagingMessage.message =
      some "" := by
  exact ⟨rfl, rfl⟩

/-- C5 (amended): for every emitted PagingMessage, the raw decoded message
the filter checked is a present, non-empty string, and the emitted
`message` field is the normalised `trimMessage` - which can be the empty
string (control-token stripping may empty it). -/
theorem C5_theorem {cfg : Config} {oc : Oracles} {frag frag' : FragMap} {l : String}
    {m : PagingMessage} (h : handleLine cfg oc frag l = (frag', some m)) :
    ∃ d s, dispatch cfg oc frag l = .ok d ∧ d.message = some s ∧ s ≠ "" ∧
      m.message = d.trimMessage := by
  obtain ⟨d, hd, s, hs, hne, hlen, hm, hfr⟩ := emit_inv h
  subst hm
  exact ⟨d, s, hd, hs, hne, rfl⟩

/-- C5 witness: the amended statement at the control-token line. -/
theorem C5_witness :
    (handleLine testCfg testOr (fun _ => none)
        "POCSAG512: Address: 1234 Function: 0 Alpha:<ABC>").2 =
      some ⟨"0001234", "", 1760227200, "test"⟩ ∧
    (∃ d s, dispatch testCfg testOr (fun _ => none)
        "POCSAG512: Address: 1234 Function: 0 Alpha:<ABC>" = .ok d ∧
      d.message = some s ∧ s ≠ "" ∧
      (⟨"0001234", "", 1760227200, "test"⟩ : PagingMessage).message = d.trimMessage) := by
  have h2 : (handleLine testCfg testOr (fun _ => none)
      "POCSAG512: Address: 1234 Function: 0 Alpha:<ABC>").2 =
      some ⟨"0001234", "", 1760227200, "test"⟩ := rfl
  have h : handleLine testCfg testOr (fun _ => none)
      "POCSAG512: Address: 1234 Function: 0 Alpha:<ABC>" =
      ((handleLine testCfg testOr (fun _ => none)
          "POCSAG512: Address: 1234 Function: 0 Alpha:<ABC>").1,
        some ⟨"0001234", "", 1760227200, "test"⟩) := by
    rw [← h2]
  exact ⟨h2, C5_theorem h⟩

/-! ## Claim C8 (emission filter) -/

/-- C8: a PagingMessage is handed to the sender only if the decoded
address is longer than 2 characters and the decoded message is a
present, non-false value; every other line produces no delivery. -/
theorem C8_theorem {cfg : Config} {oc : Oracles} {frag frag' : FragMap} {l : String}
    {m : PagingMessage} (h : handleLine cfg oc frag l = (frag', some m)) :
    ∃ d s, dispatch cfg oc frag l = .ok d ∧ d.address.length > 2 ∧ d.message = some s := by
  obtain ⟨d, hd, s, hs, hne, hlen, hm, hfr⟩ := emit_inv h
  exact ⟨d, s, hd, hlen, hs⟩

/-- C8 witness: the filter conditions at the spec's own POCSAG scenario. -/
theorem C8_witness :
    (handleLine testCfg testOr (fun _ => none)
        "POCSAG512: Address: 1234567 Function: 3 Alpha: TEST MESSAGE").2 =
      some ⟨"1234567", "TEST MESSAGE", 1760227200, "test"⟩ ∧
    (∃ d s, dispatch testCfg testOr (fun _ => none)
        "POCSAG512: Address: 1234567 Function: 3 Alpha: TEST MESSAGE" = .ok d ∧
      d.address.length > 2 ∧ d.message = some s) := by
  have h2 : (handleLine testCfg testOr (fun _ => none)
      "POCSAG512: Address: 1234567 Function: 3 Alpha: TEST MESSAGE").2 =
      some ⟨"1234567", "TEST MESSAGE", 1760227200, "test"⟩ := rfl
  have h : handleLine testCfg testOr (fun _ => none)
      "POCSAG512: Address: 1234567 Function: 3 Alpha: TEST MESSAGE" =
      ((handleLine testCfg testOr (fun _ => none)
          "POCSAG512: Address: 1234567 Function: 3 Alpha: TEST MESSAGE").1,
        some ⟨"1234567", "TEST MESSAGE", 1760227200, "test"⟩) := by
    rw [← h2]
  exact ⟨h2, C8_theorem h⟩

/-! ## Claim C7 (classification precedence) -/

/-- C7: the protocol family is decided by testing the family patterns in
the fixed order POCSAG, FLEX, EAS, UNKNOWN, and only the decoder of the
first matching family runs; in particular a line that satisfies both the
POCSAG and the FLEX pattern is handed to the POCSAG decoder. -/
theorem C7_theorem (cfg : Config) (oc : Oracles) (frag : FragMap) (l : String) :
    (pocsagTest l = true → classify l = .POCSAG ∧
      dispatch cfg oc frag l = .ok (pocsagDecode cfg oc frag l)) ∧
    (pocsagTest l = false → flexAddrTest l = true → classify l = .FLEX ∧
      dispatch cfg oc frag l = .ok (flexDecode cfg oc frag l)) ∧
    (pocsagTest l = false → flexAddrTest l = false → easTest l = true →
      classify l = .EAS ∧ dispatch cfg oc frag l = easDecode cfg oc frag l) ∧
    (pocsagTest l = false → flexAddrTest l = false → easTest l = false →
      classify l = .UNKNOWN ∧
      dispatch cfg oc frag l = .ok ⟨"", none, "", oc.nowUnix, frag⟩) := by
  refine ⟨fun hp => ⟨?_, ?_⟩, fun hp hf => ⟨?_, ?_⟩,
    fun hp hf he => ⟨?_, ?_⟩, fun hp hf he => ⟨?_, ?_⟩⟩
  · simp [classify, hp]
  · simp [dispatch, hp]
  · simp [classify, hp, hf]
  · simp [dispatch, hp, hf]
  · simp [classify, hp, hf, he]
  · simp [dispatch, hp, hf, he]
  · simp [classify, hp, hf, he]
  · simp [dispatch, hp, hf, he]

/-- C7 witness: a line satisfying both the POCSAG and the FLEX pattern is
classified and decoded as POCSAG. -/
theorem C7_witness :
    pocsagTest "POCSAG512: Address: 1234567 Function: 3 Alpha: FLEX|[123] ALN TEST" = true ∧
    flexAddrTest "POCSAG512: Address: 1234567 Function: 3 Alpha: FLEX|[123] ALN TEST" = true ∧
    classify "POCSAG512: Address: 1234567 Function: 3 Alpha: FLEX|[123] ALN TEST" = .POCSAG ∧
    dispatch testCfg testOr (fun _ => none)
        "POCSAG512: Address: 1234567 Function: 3 Alpha: FLEX|[123] ALN TEST" =
      .ok (pocsagDecode testCfg testOr (fun _ => none)
        "POCSAG512: Address: 1234567 Function: 3 Alpha: FLEX|[123] ALN TEST") := by
  refine ⟨rfl, rfl, ?_, ?_⟩
  · exact ((C7_theorem testCfg testOr (fun _ => none)
      "POCSAG512: Address: 1234567 Function: 3 Alpha: FLEX|[123] ALN TEST").1 rfl).1
  · exact ((C7_theorem testCfg testOr (fun _ => none)
      "POCSAG512: Address: 1234567 Function: 3 Alpha: FLEX|[123] ALN TEST").1 rfl).2

/-! ## Claim C9 (no delivery for unrecognised lines and EAS failures) -/

/-- C9: a line matching none of the POCSAG, FLEX and EAS patterns makes no
delivery call, and an EAS-matching line on which the opaque SAME decoder
returns no result makes no delivery call either (in both cases the
fragment store is also untouched). -/
theorem C9_theorem (cfg : Config) (oc : Oracles) (frag : FragMap) (l : String) :
    (pocsagTest l = false → flexAddrTest l = false → easTest l = false →
      handleLine cfg oc frag l = (frag, none)) ∧
    (pocsagTest l = false → flexAddrTest l = false → easTest l = true →
      oc.samDecode l = .ok none → handleLine cfg oc frag l = (frag, none)) := by
  constructor
  · intro hp hf he
    have hd : dispatch cfg oc frag l = .ok ⟨"", none, "", oc.nowUnix, frag⟩ := by
      simp [dispatch, hp, hf, he]
    rw [handleLine_ok hd]
    rfl
  · intro hp hf he hs
    have hd : dispatch cfg oc frag l = easDecode cfg oc frag l := by
      simp [dispatch, hp, hf, he]
    rcases ho : cfg.easOpts with _ | eo
    · have he2 : easDecode cfg oc frag l =
          .error "TypeError: cannot read properties of undefined" := by
        simp [easDecode, ho]
      exact handleLine_err (by rw [hd, he2])
    · have he2 : easDecode cfg oc frag l = .ok ⟨"", none, "", oc.nowUnix, frag⟩ := by
        simp [easDecode, ho, hs]
      rw [handleLine_ok (by rw [hd, he2])]
      rfl

/-- C9 witness: an unrecognised line and an EAS line the decoder rejects. -/
theorem C9_witness :
    pocsagTest "this is just noise" = false ∧
    flexAddrTest "this is just noise" = false ∧
    easTest "this is just noise" = false ∧
    handleLine testCfg testOr (fun _ => none) "this is just noise" =
      ((fun _ => none), none) ∧
    easTest "ZCZC-WXR-RWT-012345" = true ∧
    testOr.samDecode "ZCZC-WXR-RWT-012345" = .ok none ∧
    handleLine testCfg testOr (fun _ => none) "ZCZC-WXR-RWT-012345" =
      ((fun _ => none), none) := by
  refine ⟨rfl, rfl, rfl, ?_, rfl, rfl, ?_⟩
  · exact (C9_theorem testCfg testOr (fun _ => none) "this is just noise").1 rfl rfl rfl
  · exact (C9_theorem testCfg testOr (fun _ => none) "ZCZC-WXR-RWT-012345").2 rfl rfl rfl rfl

/-! ## Claim C10 (per-line exception boundary) -/

/-- C10: an exception thrown while handling one line is caught at the
per-line boundary: the handler returns with the fragment store untouched
and no emission, and processing of the remaining lines is exactly as if
the offending line had not been present - the loop never dies. -/
theorem C10_theorem (cfg : Config) (oc : Oracles) (frag : FragMap) (l : String) (e : String)
    (h : lineBody cfg oc frag l = .error e) :
    handleLine cfg oc frag l = (frag, none) ∧
    ∀ rest, processLines cfg oc frag (l :: rest) = processLines cfg oc frag rest := by
  have hh : handleLine cfg oc frag l = (frag, none) := by
    unfold handleLine
    rw [h]
  refine ⟨hh, fun rest => ?_⟩
  simp only [processLines, hh]

/-- C10 witness: reading `EASOpts.excludeEvents` with no `EAS` config
object throws; the line is swallowed and the next line is processed. -/
theorem C10_witness :
    lineBody cfgNoEas testOr (fun _ => none) "EAS: REQUIRED MONTHLY TEST" =
      .error "TypeError: cannot read properties of undefined" ∧
    handleLine cfgNoEas testOr (fun _ => none) "EAS: REQUIRED MONTHLY TEST" =
      ((fun _ => none), none) ∧
    processLines cfgNoEas testOr (fun _ => none)
        ["EAS: REQUIRED MONTHLY TEST",
         "POCSAG512: Address: 1234567 Function: 3 Alpha: TEST MESSAGE"] =
      processLines cfgNoEas testOr (fun _ => none)
        ["POCSAG512: Address: 1234567 Function: 3 Alpha: TEST MESSAGE"] := by
  have h : lineBody cfgNoEas testOr (fun _ => none) "EAS: REQUIRED MONTHLY TEST" =
      .error "TypeError: cannot read properties of undefined" := rfl
  exact ⟨h,
    (C10_theorem cfgNoEas testOr (fun _ => none) "EAS: REQUIRED MONTHLY TEST" _ h).1,
    (C10_theorem cfgNoEas testOr (fun _ => none) "EAS: REQUIRED MONTHLY TEST" _ h).2 _⟩

end Reader
